import Mathlib

/-!
Shallow embedding of the training-pets backend (src/main.py, src/schemas.py).

Documents are association lists from field names to JSON-like values; the
store is a map from collection names to lists of documents.  Each HTTP
handler is embedded as a pure function of the (optional) store state and
its inputs; the current wall-clock time is passed explicitly where the
source calls datetime.now.  The document-database adapter (database.py is
not part of the sources) is modelled from the specification.
-/

namespace TrainingPets

/-- JSON-like values stored in documents.  `vOid` is the store's native
identifier representation (a 24-hex-character ObjectId); `vStr` is an
ordinary string. -/
inductive Value where
  | vStr (s : String)
  | vBool (b : Bool)
  | vNat (n : Nat)
  | vList (l : List String)
  | vOid (s : String)
  | vNull
deriving DecidableEq, Repr

/-- A stored document: an association list of field name to value, first
binding of a key wins (mirrors a Python dict). -/
abbrev Doc := List (String × Value)

/-- Field lookup, `doc[k]` when present. -/
def getField (d : Doc) (k : String) : Option Value :=
  (d.find? (fun p => p.1 == k)).map Prod.snd

/-- Python `d.get(k)`: missing fields read as None. -/
def dictGet (d : Doc) (k : String) : Value :=
  (getField d k).getD Value.vNull

/-- Python `d[k] = v` / MongoDB `$set` of one field: replace in place when
the key exists, otherwise append. -/
def setField (d : Doc) (k : String) (v : Value) : Doc :=
  match d with
  | [] => [(k, v)]
  | (k', v') :: rest => if k' == k then (k, v) :: rest else (k', v') :: setField rest k v

/-- Apply a sequence of field assignments in order. -/
def setFields (d : Doc) (sets : List (String × Value)) : Doc :=
  sets.foldl (fun acc p => setField acc p.1 p.2) d

/-- Python `str(v)` as needed by the handlers (`str(d.get("_id"))`):
`str` of an ObjectId is its 24-hex-character string, `str(None)` is
"None". -/
def valueToString : Value → String
  | .vStr s => s
  | .vOid s => s
  | .vBool b => if b then "True" else "False"
  | .vNat n => toString n
  | .vList l => toString l
  | .vNull => "None"

/-- Python truthiness of a stored value, as used by `l.get("success")`. -/
def Value.truthy : Value → Bool
  | .vStr s => !(s == "")
  | .vBool b => b
  | .vNat n => n != 0
  | .vList l => !l.isEmpty
  | .vOid _ => true
  | .vNull => false

/-- Python truthiness of an `Optional[str]` query parameter: None and the
empty string are falsy (`if dog_id:` in the handlers). -/
def truthyStr : Option String → Bool
  | none => false
  | some s => !(s == "")

/-- Validity test: `bson.ObjectId(id_str)` succeeds on a string exactly when it is a
24-character hexadecimal string. -/
def isValidObjectId (s : String) : Bool :=
  s.length == 24 && s.toList.all (fun c => c.isDigit || ('a' ≤ c && c ≤ 'f') || ('A' ≤ c && c ≤ 'F'))

/-- Error responses raised by the handlers (HTTPException status codes,
plus the framework-level query-validation rejection). -/
inductive HttpError where
  | badRequest (detail : String)
  | notFound (detail : String)
  | serverError (detail : String)
  | validationError
deriving DecidableEq, Repr

/-- Embedding of `to_object_id` (src/main.py): parse the path id, raising 400
"Invalid id format" when it is not a valid ObjectId string. -/
def to_object_id (id_str : String) : Except HttpError String :=
  if isValidObjectId id_str then Except.ok id_str
  else Except.error (HttpError.badRequest "Invalid id format")

/-- The connected document store: named collections, each a list of
documents. -/
structure Database where
  colls : List (String × List Doc)
deriving DecidableEq, Repr

/-- Read a collection (missing collections read as empty). -/
def Database.getColl (db : Database) (name : String) : List Doc :=
  ((db.colls.find? (fun p => p.1 == name)).map Prod.snd).getD []

/-- Replace one collection's contents in the named-collection list. -/
def setCollList (name : String) (docs : List Doc) :
    List (String × List Doc) → List (String × List Doc)
  | [] => [(name, docs)]
  | (n, ds) :: rest =>
      if n == name then (name, docs) :: rest else (n, ds) :: setCollList name docs rest

/-- Replace a collection's contents. -/
def Database.setColl (db : Database) (name : String) (docs : List Doc) : Database :=
  Database.mk (setCollList name docs db.colls)

/-- Embedding of `collection_name` (src/main.py): the lowercased model class name
(character-wise lowering of the ASCII class names). -/
def collection_name (modelName : String) : String :=
  String.mk (modelName.data.map Char.toLower)

/-- Exact-match filter semantics of the store: every field-value pair of
the filter must be present with that exact value. -/
def matchesFilter (filt : Doc) (d : Doc) : Bool :=
  filt.all (fun p => getField d p.1 == some p.2)

/-- MongoDB `update_one(pred, set)`: update the first matching document
with the given `$set` assignments; returns the new collection contents and
the matched count (0 or 1). -/
def updateOne (docs : List Doc) (pred : Doc → Bool) (sets : List (String × Value)) :
    List Doc × Nat :=
  match docs with
  | [] => ([], 0)
  | d :: rest =>
      if pred d then (setFields d sets :: rest, 1)
      else
        let r := updateOne rest pred sets
        (d :: r.1, r.2)

/-- Modelled from the spec: `get_documents` of the absent database.py —
the Document Store Adapter's find operation (§4.1): exact-match filter,
`limit` truncates the result count (`none` = no truncation, as used by the
analytics aggregator which fetches all records), and on store-connection
absence read operations return an empty sequence rather than failing. -/
def get_documents (db : Option Database) (coll : String) (filt : Doc)
    (limit : Option Nat) : List Doc :=
  match db with
  | none => []
  | some d =>
      let matching := (d.getColl coll).filter (matchesFilter filt)
      match limit with
      | none => matching
      | some n => matching.take n

/-- The per-document post-processing `d["_id"] = str(d.get("_id"))` done
by every list handler. -/
def stringifyId (d : Doc) : Doc :=
  setField d "_id" (Value.vStr (valueToString (dictGet d "_id")))

/-- Embedding of FastAPI `Query(default, ge=lo, le=hi)` validation of the `limit`
query parameter: absent means the default; a supplied value outside
[lo, hi] is rejected before the handler body runs. -/
def validateLimit (default : Nat) (lo hi : Int) (limit : Option Int) :
    Except HttpError Nat :=
  match limit with
  | none => Except.ok default
  | some l => if lo ≤ l ∧ l ≤ hi then Except.ok l.toNat else Except.error HttpError.validationError

/-- Embedding of `list_dogs` (GET /dogs): limit in [1,500], default 100; returns the
fetched documents with identifiers stringified. -/
def list_dogs (db : Option Database) (limit : Option Int) : Except HttpError (List Doc) := do
  let lim ← validateLimit 100 1 500 limit
  let docs := get_documents db (collection_name "Dog") [] (some lim)
  pure (docs.map stringifyId)

/-- Embedding of `list_exercises` (GET /exercises): limit in [1,1000], default 200. -/
def list_exercises (db : Option Database) (limit : Option Int) : Except HttpError (List Doc) := do
  let lim ← validateLimit 200 1 1000 limit
  let docs := get_documents db (collection_name "Exercise") [] (some lim)
  pure (docs.map stringifyId)

/-- Embedding of `list_tasks` (GET /tasks): optional dog_id/status filters (added to
the query only when truthy), limit in [1,500], default 50. -/
def list_tasks (db : Option Database) (dog_id status : Option String)
    (limit : Option Int) : Except HttpError (List Doc) := do
  let lim ← validateLimit 50 1 500 limit
  let filt : Doc :=
    (if truthyStr dog_id then [("dog_id", Value.vStr (dog_id.getD ""))] else []) ++
    (if truthyStr status then [("status", Value.vStr (status.getD ""))] else [])
  let docs := get_documents db (collection_name "Task") filt (some lim)
  pure (docs.map stringifyId)

/-- Embedding of `list_progress` (GET /progress): optional dog_id/task_id filters
(added only when truthy), limit in [1,1000], default 200. -/
def list_progress (db : Option Database) (dog_id task_id : Option String)
    (limit : Option Int) : Except HttpError (List Doc) := do
  let lim ← validateLimit 200 1 1000 limit
  let filt : Doc :=
    (if truthyStr dog_id then [("dog_id", Value.vStr (dog_id.getD ""))] else []) ++
    (if truthyStr task_id then [("task_id", Value.vStr (task_id.getD ""))] else [])
  let docs := get_documents db (collection_name "ProgressLog") filt (some lim)
  pure (docs.map stringifyId)

/-- The sparse PATCH payload `TaskUpdate` (src/main.py): every field
optional, absent fields encoded as `none`. -/
structure TaskUpdate where
  title : Option String := none
  steps : Option (List String) := none
  status : Option String := none
  scheduled_for : Option Nat := none
  language : Option String := none
deriving DecidableEq, Repr

/-- One optional field of the dumped payload: present iff non-None. -/
def optField (k : String) (v : Option Value) : List (String × Value) :=
  match v with
  | some x => [(k, x)]
  | none => []

/-- Embedding of `{k: v for k, v in payload.model_dump().items() if v is not None}`:
the non-None payload fields, in declaration order. -/
def TaskUpdate.updateFields (p : TaskUpdate) : List (String × Value) :=
  optField "title" (p.title.map Value.vStr) ++
  optField "steps" (p.steps.map Value.vList) ++
  optField "status" (p.status.map Value.vStr) ++
  optField "scheduled_for" (p.scheduled_for.map Value.vNat) ++
  optField "language" (p.language.map Value.vStr)

/-- The `{"_id": oid}` match predicate used by both task mutations. -/
def idPred (oid : String) (doc : Doc) : Bool :=
  getField doc "_id" == some (Value.vOid oid)

/-- Embedding of `update_task` (PATCH /tasks/{task_id}): 500 when no store connection,
400 on a malformed id, then `$set` of the non-None payload fields plus an
`updated_at` stamp on the matching task; 404 when nothing matched. -/
def update_task (db : Option Database) (task_id : String) (payload : Option TaskUpdate)
    (now : Nat) : Except HttpError (Database × Bool) :=
  match db with
  | none => Except.error (HttpError.serverError "Database not configured")
  | some d =>
      match to_object_id task_id with
      | Except.error e => Except.error e
      | Except.ok oid =>
          let update_doc :=
            (match payload with | some p => p.updateFields | none => []) ++
              [("updated_at", Value.vNat now)]
          let r := updateOne (d.getColl (collection_name "Task")) (idPred oid) update_doc
          if r.2 == 0 then Except.error (HttpError.notFound "Task not found")
          else Except.ok (d.setColl (collection_name "Task") r.1, true)

/-- Embedding of `complete_task` (POST /tasks/{task_id}/complete): 500 when no store
connection, 400 on a malformed id, then unconditionally `$set`
status="completed" plus an `updated_at` stamp; 404 when nothing matched;
returns `{completed: true}`. -/
def complete_task (db : Option Database) (task_id : String) (now : Nat) :
    Except HttpError (Database × Bool) :=
  match db with
  | none => Except.error (HttpError.serverError "Database not configured")
  | some d =>
      match to_object_id task_id with
      | Except.error e => Except.error e
      | Except.ok oid =>
          let r := updateOne (d.getColl (collection_name "Task")) (idPred oid)
            [("status", Value.vStr "completed"), ("updated_at", Value.vNat now)]
          if r.2 == 0 then Except.error (HttpError.notFound "Task not found")
          else Except.ok (d.setColl (collection_name "Task") r.1, true)

/-- The analytics response `{total_tasks, completed_tasks, success_rate}`;
success_rate is a rational (Python float division of two small counts) or
null. -/
structure Summary where
  total_tasks : Nat
  completed_tasks : Nat
  success_rate : Option ℚ
deriving DecidableEq, Repr

/-- The `{"dog_id": dog_id} if dog_id else {}` filter of the analytics
handler. -/
def analyticsFilter (dog_id : Option String) : Doc :=
  if truthyStr dog_id then [("dog_id", Value.vStr (dog_id.getD ""))] else []

/-- Embedding of `analytics_summary` (GET /analytics/summary): count fetched tasks and
those with status exactly "completed"; success_rate is successes over
total logs when at least one log was fetched, otherwise null. -/
def analytics_summary (db : Option Database) (dog_id : Option String) : Summary :=
  let tasks := get_documents db (collection_name "Task") (analyticsFilter dog_id) none
  let logs := get_documents db (collection_name "ProgressLog") (analyticsFilter dog_id) none
  let total_tasks := tasks.length
  let completed := (tasks.filter (fun t => dictGet t "status" == Value.vStr "completed")).length
  let success_rate : Option ℚ :=
    if logs.isEmpty then none
    else
      let successes := (logs.filter (fun l => (dictGet l "success").truthy)).length
      some ((successes : ℚ) / (logs.length : ℚ))
  Summary.mk total_tasks completed success_rate

/-- Frames sent on the live channel: the welcome message or an echo of an
inbound text frame. -/
inductive Frame where
  | welcome (message : String)
  | echo (text : String)
deriving DecidableEq, Repr

/-- The receive/echo loop of the live channel: one echo per inbound text
frame; the list ends when the client disconnects (the
WebSocketDisconnect raised by the next receive is caught and the handler
returns, sending nothing further). -/
def wsLoop : List String → List Frame
  | [] => []
  | s :: rest => Frame.echo s :: wsLoop rest

/-- Embedding of `websocket_endpoint` (WS /ws/live): the full outbound frame sequence
for a connection whose inbound text frames, in order, are `inbound`,
followed by a client disconnect. -/
def websocket_endpoint (inbound : List String) : List Frame :=
  Frame.welcome "Connected to training-pets live coach" :: wsLoop inbound

/-- First stored task matching an ObjectId (the document `update_one`
would target). -/
def findTask (docs : List Doc) (oid : String) : Option Doc :=
  docs.find? (idPred oid)

/-! ### Helper lemmas about documents and field assignment -/

theorem getField_nil (k : String) : getField [] k = none := rfl

theorem getField_cons (a : String) (b : Value) (rest : Doc) (k : String) :
    getField ((a, b) :: rest) k = if a = k then some b else getField rest k := by
  by_cases h : a = k
  · subst h
    simp [getField, List.find?]
  · have hb : (a == k) = false := beq_eq_false_iff_ne.mpr h
    simp [getField, List.find?, hb, h]

theorem setField_cons_eq (a : String) (b : Value) (rest : Doc) (k : String) (v : Value) :
    setField ((a, b) :: rest) k v =
      if a = k then (k, v) :: rest else (a, b) :: setField rest k v := by
  by_cases h : a = k <;> simp [setField, h]

theorem getField_setField (d : Doc) (k : String) (v : Value) (k' : String) :
    getField (setField d k v) k' = if k' = k then some v else getField d k' := by
  induction d with
  | nil =>
      show getField [(k, v)] k' = _
      rw [getField_cons, getField_nil]
      by_cases h : k' = k
      · rw [if_pos h.symm, if_pos h]
      · have hne : ¬ k = k' := fun hh => h hh.symm
        rw [if_neg hne, if_neg h]
  | cons p rest ih =>
      obtain ⟨a, b⟩ := p
      rw [setField_cons_eq]
      by_cases hak : a = k
      · rw [if_pos hak, getField_cons, getField_cons]
        by_cases h : k' = k
        · rw [if_pos h.symm, if_pos h]
        · have hne : ¬ k = k' := fun hh => h hh.symm
          have hne2 : ¬ a = k' := fun hh => h (hh ▸ hak)
          rw [if_neg hne, if_neg h, if_neg hne2]
      · rw [if_neg hak, getField_cons, getField_cons, ih]
        by_cases h2 : a = k'
        · have hkk : ¬ k' = k := fun hh => hak (h2.trans hh)
          rw [if_pos h2, if_neg hkk, if_pos h2]
        · rw [if_neg h2, if_neg h2]

theorem setField_self (d : Doc) (k : String) (v : Value)
    (h : getField d k = some v) : setField d k v = d := by
  induction d with
  | nil => simp [getField_nil] at h
  | cons p rest ih =>
      obtain ⟨a, b⟩ := p
      rw [getField_cons] at h
      rw [setField_cons_eq]
      by_cases hak : a = k
      · rw [if_pos hak] at h
        obtain rfl : b = v := Option.some.inj h
        rw [if_pos hak, ← hak]
      · rw [if_neg hak] at h
        rw [if_neg hak, ih h]

theorem setFields_nil (d : Doc) : setFields d [] = d := rfl

theorem setFields_cons (d : Doc) (k : String) (v : Value) (rest : List (String × Value)) :
    setFields d ((k, v) :: rest) = setFields (setField d k v) rest := rfl

theorem setFields_append (d : Doc) (l1 l2 : List (String × Value)) :
    setFields d (l1 ++ l2) = setFields (setFields d l1) l2 := by
  simp [setFields, List.foldl_append]

theorem getField_setFields_not_mem (sets : List (String × Value)) (d : Doc) (k : String)
    (h : k ∉ sets.map Prod.fst) : getField (setFields d sets) k = getField d k := by
  induction sets generalizing d with
  | nil => rfl
  | cons p rest ih =>
      obtain ⟨a, b⟩ := p
      simp only [List.map_cons, List.mem_cons, not_or] at h
      rw [setFields_cons, ih _ h.2, getField_setField, if_neg h.1]

theorem getField_setFields_head (d : Doc) (k : String) (v : Value)
    (rest : List (String × Value)) (h : k ∉ rest.map Prod.fst) :
    getField (setFields d ((k, v) :: rest)) k = some v := by
  rw [setFields_cons, getField_setFields_not_mem rest _ k h, getField_setField, if_pos rfl]

theorem getField_setFields_mid (d : Doc) (l1 : List (String × Value)) (k : String)
    (v : Value) (l2 : List (String × Value)) (h : k ∉ l2.map Prod.fst) :
    getField (setFields d (l1 ++ (k, v) :: l2)) k = some v := by
  rw [setFields_append, getField_setFields_head _ _ _ _ h]

theorem mem_keys_optField (k' k : String) (v : Option Value) :
    k' ∈ (optField k v).map Prod.fst ↔ k' = k ∧ v.isSome := by
  cases v <;> simp [optField]

theorem mem_keys_updateFields (p : TaskUpdate) (k : String)
    (h : k ∈ p.updateFields.map Prod.fst) :
    k ∈ ["title", "steps", "status", "scheduled_for", "language"] := by
  simp only [TaskUpdate.updateFields, List.map_append, List.mem_append,
    mem_keys_optField] at h
  rcases h with (((⟨h, _⟩ | ⟨h, _⟩) | ⟨h, _⟩) | ⟨h, _⟩) | ⟨h, _⟩ <;> subst h <;> simp

/-! ### Helper lemmas about `updateOne` and the store -/

theorem updateOne_of_find?_none (docs : List Doc) (pred : Doc → Bool)
    (sets : List (String × Value)) (h : docs.find? pred = none) :
    updateOne docs pred sets = (docs, 0) := by
  induction docs with
  | nil => rfl
  | cons d rest ih =>
      cases hd : pred d with
      | true =>
          rw [List.find?_cons_of_pos _ hd] at h
          exact absurd h (by simp)
      | false =>
          have hd' : ¬ pred d = true := by simp [hd]
          rw [List.find?_cons_of_neg _ hd'] at h
          simp [updateOne, hd, ih h]

theorem updateOne_of_find?_some (docs : List Doc) (pred : Doc → Bool)
    (sets : List (String × Value)) (doc : Doc) (h : docs.find? pred = some doc)
    (hpres : pred (setFields doc sets) = true) :
    (updateOne docs pred sets).2 = 1 ∧
      (updateOne docs pred sets).1.find? pred = some (setFields doc sets) := by
  induction docs with
  | nil => simp [List.find?] at h
  | cons d rest ih =>
      cases hd : pred d with
      | true =>
          rw [List.find?_cons_of_pos _ hd] at h
          obtain rfl : d = doc := Option.some.inj h
          refine ⟨by simp [updateOne, hd], ?_⟩
          simp [updateOne, hd, List.find?_cons_of_pos _ hpres]
      | false =>
          have hd' : ¬ pred d = true := by simp [hd]
          rw [List.find?_cons_of_neg _ hd'] at h
          obtain ⟨h1, h2⟩ := ih h
          refine ⟨by simpa [updateOne, hd] using h1, ?_⟩
          have hu : (updateOne (d :: rest) pred sets).1 = d :: (updateOne rest pred sets).1 := by
            simp [updateOne, hd]
          rw [hu, List.find?_cons_of_neg _ hd']
          exact h2

theorem updateOne_matched_zero (docs : List Doc) (pred : Doc → Bool)
    (sets : List (String × Value)) :
    (updateOne docs pred sets).2 = 0 ↔ docs.find? pred = none := by
  induction docs with
  | nil => simp [updateOne, List.find?]
  | cons d rest ih =>
      cases hd : pred d with
      | true => simp [updateOne, hd, List.find?_cons_of_pos _ hd]
      | false =>
          have hd' : ¬ pred d = true := by simp [hd]
          rw [List.find?_cons_of_neg _ hd']
          simpa [updateOne, hd] using ih

theorem updateOne_idem (docs : List Doc) (pred : Doc → Bool) (sets : List (String × Value))
    (hfix : ∀ m, pred m = true → setFields (setFields m sets) sets = setFields m sets)
    (hpres : ∀ m, pred m = true → pred (setFields m sets) = true) :
    updateOne (updateOne docs pred sets).1 pred sets = updateOne docs pred sets := by
  induction docs with
  | nil => rfl
  | cons d rest ih =>
      cases hd : pred d with
      | true => simp [updateOne, hd, hpres d hd, hfix d hd]
      | false =>
          have hu : updateOne (d :: rest) pred sets =
              (d :: (updateOne rest pred sets).1, (updateOne rest pred sets).2) := by
            simp [updateOne, hd]
          have hu2 : updateOne (d :: (updateOne rest pred sets).1) pred sets =
              (d :: (updateOne (updateOne rest pred sets).1 pred sets).1,
               (updateOne (updateOne rest pred sets).1 pred sets).2) := by
            simp [updateOne, hd]
          rw [hu, hu2, ih]

theorem find?_setCollList_same (name : String) (docs : List Doc)
    (colls : List (String × List Doc)) :
    (setCollList name docs colls).find? (fun p => p.1 == name) = some (name, docs) := by
  induction colls with
  | nil => simp [setCollList, List.find?]
  | cons p rest ih =>
      obtain ⟨n, ds⟩ := p
      by_cases h : n = name
      · simp [setCollList, h, List.find?]
      · have hb : (n == name) = false := beq_eq_false_iff_ne.mpr h
        simp [setCollList, hb, List.find?, ih]

theorem getColl_setColl_same (db : Database) (name : String) (docs : List Doc) :
    (db.setColl name docs).getColl name = docs := by
  simp [Database.getColl, Database.setColl, find?_setCollList_same]

theorem setCollList_idem (name : String) (docs : List Doc)
    (colls : List (String × List Doc)) :
    setCollList name docs (setCollList name docs colls) = setCollList name docs colls := by
  induction colls with
  | nil => simp [setCollList]
  | cons p rest ih =>
      obtain ⟨n, ds⟩ := p
      by_cases h : n = name
      · simp [setCollList, h]
      · have hb : (n == name) = false := beq_eq_false_iff_ne.mpr h
        simp [setCollList, hb, ih]

theorem setColl_setColl_same (db : Database) (name : String) (docs : List Doc) :
    (db.setColl name docs).setColl name docs = db.setColl name docs := by
  simp [Database.setColl, setCollList_idem]

theorem collection_name_Task : collection_name "Task" = "task" := by decide

theorem collection_name_Dog : collection_name "Dog" = "dog" := by decide

theorem collection_name_Exercise : collection_name "Exercise" = "exercise" := by decide

theorem collection_name_ProgressLog : collection_name "ProgressLog" = "progresslog" := by decide

theorem idPred_setFields (oid : String) (doc : Doc) (sets : List (String × Value))
    (h : "_id" ∉ sets.map Prod.fst) : idPred oid (setFields doc sets) = idPred oid doc := by
  simp [idPred, getField_setFields_not_mem _ _ _ h]

theorem complete_task_some_eq (d : Database) (tid : String) (now : Nat)
    (hvalid : isValidObjectId tid = true) :
    complete_task (some d) tid now =
      (let r := updateOne (d.getColl "task") (idPred tid)
        [("status", Value.vStr "completed"), ("updated_at", Value.vNat now)]
       if r.2 == 0 then Except.error (HttpError.notFound "Task not found")
       else Except.ok (d.setColl "task" r.1, true)) := by
  simp only [complete_task, to_object_id, hvalid, if_true, collection_name_Task]

theorem update_task_some_eq (d : Database) (tid : String) (payload : Option TaskUpdate)
    (now : Nat) (hvalid : isValidObjectId tid = true) :
    update_task (some d) tid payload now =
      (let ud := (match payload with | some p => p.updateFields | none => []) ++
        [("updated_at", Value.vNat now)]
       let r := updateOne (d.getColl "task") (idPred tid) ud
       if r.2 == 0 then Except.error (HttpError.notFound "Task not found")
       else Except.ok (d.setColl "task" r.1, true)) := by
  simp only [update_task, to_object_id, hvalid, if_true, collection_name_Task]

theorem ud_getField_spec (p : TaskUpdate) (now : Nat) (doc : Doc) :
    getField (setFields doc (p.updateFields ++ [("updated_at", Value.vNat now)])) "updated_at" =
      some (Value.vNat now) ∧
    (∀ t, p.title = some t →
      getField (setFields doc (p.updateFields ++ [("updated_at", Value.vNat now)])) "title" =
        some (Value.vStr t)) ∧
    (p.title = none →
      getField (setFields doc (p.updateFields ++ [("updated_at", Value.vNat now)])) "title" =
        getField doc "title") ∧
    (∀ s, p.steps = some s →
      getField (setFields doc (p.updateFields ++ [("updated_at", Value.vNat now)])) "steps" =
        some (Value.vList s)) ∧
    (p.steps = none →
      getField (setFields doc (p.updateFields ++ [("updated_at", Value.vNat now)])) "steps" =
        getField doc "steps") ∧
    (∀ s, p.status = some s →
      getField (setFields doc (p.updateFields ++ [("updated_at", Value.vNat now)])) "status" =
        some (Value.vStr s)) ∧
    (p.status = none →
      getField (setFields doc (p.updateFields ++ [("updated_at", Value.vNat now)])) "status" =
        getField doc "status") ∧
    (∀ t, p.scheduled_for = some t →
      getField (setFields doc (p.updateFields ++ [("updated_at", Value.vNat now)])) "scheduled_for" =
        some (Value.vNat t)) ∧
    (p.scheduled_for = none →
      getField (setFields doc (p.updateFields ++ [("updated_at", Value.vNat now)])) "scheduled_for" =
        getField doc "scheduled_for") ∧
    (∀ s, p.language = some s →
      getField (setFields doc (p.updateFields ++ [("updated_at", Value.vNat now)])) "language" =
        some (Value.vStr s)) ∧
    (p.language = none →
      getField (setFields doc (p.updateFields ++ [("updated_at", Value.vNat now)])) "language" =
        getField doc "language") ∧
    (∀ k, k ∉ ["title", "steps", "status", "scheduled_for", "language", "updated_at"] →
      getField (setFields doc (p.updateFields ++ [("updated_at", Value.vNat now)])) k =
        getField doc k) := by
  obtain ⟨t1, t2, t3, t4, t5⟩ := p
  refine ⟨?_, ?_, ?_, ?_, ?_, ?_, ?_, ?_, ?_, ?_, ?_, ?_⟩
  · cases t1 <;> cases t2 <;> cases t3 <;> cases t4 <;> cases t5 <;>
      simp [TaskUpdate.updateFields, optField, setFields, getField_setField]
  · intro t ht
    simp only at ht
    subst ht
    cases t2 <;> cases t3 <;> cases t4 <;> cases t5 <;>
      simp [TaskUpdate.updateFields, optField, setFields, getField_setField]
  · intro ht
    simp only at ht
    subst ht
    cases t2 <;> cases t3 <;> cases t4 <;> cases t5 <;>
      simp [TaskUpdate.updateFields, optField, setFields, getField_setField]
  · intro s hs
    simp only at hs
    subst hs
    cases t1 <;> cases t3 <;> cases t4 <;> cases t5 <;>
      simp [TaskUpdate.updateFields, optField, setFields, getField_setField]
  · intro hs
    simp only at hs
    subst hs
    cases t1 <;> cases t3 <;> cases t4 <;> cases t5 <;>
      simp [TaskUpdate.updateFields, optField, setFields, getField_setField]
  · intro s hs
    simp only at hs
    subst hs
    cases t1 <;> cases t2 <;> cases t4 <;> cases t5 <;>
      simp [TaskUpdate.updateFields, optField, setFields, getField_setField]
  · intro hs
    simp only at hs
    subst hs
    cases t1 <;> cases t2 <;> cases t4 <;> cases t5 <;>
      simp [TaskUpdate.updateFields, optField, setFields, getField_setField]
  · intro t ht
    simp only at ht
    subst ht
    cases t1 <;> cases t2 <;> cases t3 <;> cases t5 <;>
      simp [TaskUpdate.updateFields, optField, setFields, getField_setField]
  · intro ht
    simp only at ht
    subst ht
    cases t1 <;> cases t2 <;> cases t3 <;> cases t5 <;>
      simp [TaskUpdate.updateFields, optField, setFields, getField_setField]
  · intro s hs
    simp only at hs
    subst hs
    cases t1 <;> cases t2 <;> cases t3 <;> cases t4 <;>
      simp [TaskUpdate.updateFields, optField, setFields, getField_setField]
  · intro hs
    simp only at hs
    subst hs
    cases t1 <;> cases t2 <;> cases t3 <;> cases t4 <;>
      simp [TaskUpdate.updateFields, optField, setFields, getField_setField]
  · intro k hk
    simp only [List.mem_cons, List.mem_singleton, not_or] at hk
    obtain ⟨h1, h2, h3, h4, h5, h6⟩ := hk
    cases t1 <;> cases t2 <;> cases t3 <;> cases t4 <;> cases t5 <;>
      simp [TaskUpdate.updateFields, optField, setFields, getField_setField,
        h1, h2, h3, h4, h5, h6]

theorem id_not_mem_ud (p : TaskUpdate) (now : Nat) :
    "_id" ∉ ((match (some p : Option TaskUpdate) with
      | some p => p.updateFields | none => []) ++
      [("updated_at", Value.vNat now)]).map Prod.fst := by
  intro h
  simp only [List.map_append, List.mem_append] at h
  rcases h with h | h
  · exact absurd (mem_keys_updateFields p _ h) (by decide)
  · simp only [List.map_cons, List.map_nil, List.mem_singleton] at h
    exact absurd h (by decide)

theorem mutation_if_notFound_iff (d : Database) (tid : String)
    (ud : List (String × Value)) :
    ((if (updateOne (d.getColl "task") (idPred tid) ud).2 == 0
        then Except.error (HttpError.notFound "Task not found")
        else Except.ok
          (d.setColl "task" (updateOne (d.getColl "task") (idPred tid) ud).1, true)) =
      Except.error (HttpError.notFound "Task not found")) ↔
    (d.getColl "task").find? (idPred tid) = none := by
  by_cases hm : (updateOne (d.getColl "task") (idPred tid) ud).2 = 0
  · rw [if_pos (by simpa using hm)]
    simp [(updateOne_matched_zero _ _ _).mp hm]
  · rw [if_neg (by simpa using hm)]
    constructor
    · intro h
      cases h
    · intro hfn
      exact absurd ((updateOne_matched_zero _ _ _).mpr hfn) hm

theorem mutation_if_ne_badRequest (d : Database) (tid : String)
    (ud : List (String × Value)) (s : String) :
    (if (updateOne (d.getColl "task") (idPred tid) ud).2 == 0
        then Except.error (HttpError.notFound "Task not found")
        else Except.ok
          (d.setColl "task" (updateOne (d.getColl "task") (idPred tid) ud).1, true)) ≠
      Except.error (HttpError.badRequest s) := by
  split <;> simp

theorem completeSets_idem (m : Doc) (now : Nat) :
    setFields (setFields m [("status", Value.vStr "completed"), ("updated_at", Value.vNat now)])
      [("status", Value.vStr "completed"), ("updated_at", Value.vNat now)] =
    setFields m [("status", Value.vStr "completed"), ("updated_at", Value.vNat now)] := by
  have hX1 : getField (setField (setField m "status" (Value.vStr "completed"))
      "updated_at" (Value.vNat now)) "status" = some (Value.vStr "completed") := by
    rw [getField_setField, if_neg (by simp), getField_setField, if_pos rfl]
  have hX2 : getField (setField (setField m "status" (Value.vStr "completed"))
      "updated_at" (Value.vNat now)) "updated_at" = some (Value.vNat now) := by
    rw [getField_setField, if_pos rfl]
  show setField (setField (setField (setField m "status" (Value.vStr "completed"))
    "updated_at" (Value.vNat now)) "status" (Value.vStr "completed"))
    "updated_at" (Value.vNat now) = _
  rw [setField_self _ _ _ hX1, setField_self _ _ _ hX2]
  rfl

theorem length_get_documents_le (db : Option Database) (coll : String) (filt : Doc)
    (n : Nat) : (get_documents db coll filt (some n)).length ≤ n := by
  cases db with
  | none => simp [get_documents]
  | some d =>
      simp only [get_documents]
      rw [List.length_take]
      exact min_le_left _ _

theorem list_ok_shape (v : Except HttpError Nat) (g : Nat → List Doc) (items : List Doc)
    (h : (do
        let lim ← v
        pure ((g lim).map stringifyId) : Except HttpError (List Doc)) = Except.ok items) :
    ∃ n, v = Except.ok n ∧ items = (g n).map stringifyId := by
  cases v with
  | error e => simp [Bind.bind, Except.bind] at h
  | ok n =>
      refine ⟨n, rfl, ?_⟩
      have : Except.ok ((g n).map stringifyId) = (Except.ok items : Except HttpError (List Doc)) := h
      exact (Except.ok.inj this).symm

theorem getField_stringifyId (d : Doc) :
    getField (stringifyId d) "_id" =
      some (Value.vStr (valueToString (dictGet d "_id"))) := by
  rw [stringifyId, getField_setField, if_pos rfl]

theorem validateLimit_pos (default : Nat) (lo hi : Int) (lim : Int)
    (h1 : lo ≤ lim) (h2 : lim ≤ hi) :
    validateLimit default lo hi (some lim) = Except.ok lim.toNat := by
  simp [validateLimit, h1, h2]

theorem validateLimit_neg (default : Nat) (lo hi : Int) (lim : Int)
    (h : lim < lo ∨ hi < lim) :
    validateLimit default lo hi (some lim) = Except.error HttpError.validationError := by
  have : ¬ (lo ≤ lim ∧ lim ≤ hi) := by
    rcases h with h | h
    · exact fun hc => absurd hc.1 (not_le.mpr h)
    · exact fun hc => absurd hc.2 (not_le.mpr h)
  simp [validateLimit, this]

theorem wsLoop_eq_map (l : List String) : wsLoop l = l.map Frame.echo := by
  induction l with
  | nil => rfl
  | cons s rest ih => simp [wsLoop, ih]

/-! ### Concrete example data -/

/-- A well-formed ObjectId string (24 hex characters). -/
def exOid : String := "aaaaaaaaaaaaaaaaaaaaaaaa"

/-- A second well-formed ObjectId string. -/
def exOid2 : String := "bbbbbbbbbbbbbbbbbbbbbbbb"

/-- A concrete stored task for the analytics example. -/
def exTask (oid : String) (st : String) : Doc :=
  [("_id", Value.vOid oid), ("dog_id", Value.vStr "d1"),
   ("title", Value.vStr "sit"), ("status", Value.vStr st)]

/-- A concrete stored progress log. -/
def exLog (s : Bool) : Doc :=
  [("task_id", Value.vStr exOid), ("dog_id", Value.vStr "d1"), ("success", Value.vBool s)]

/-- Four tasks for dog d1, three of them completed. -/
def exTasks : List Doc :=
  [exTask "000000000000000000000001" "completed",
   exTask "000000000000000000000002" "completed",
   exTask "000000000000000000000003" "completed",
   exTask "000000000000000000000004" "pending"]

/-- Five progress logs for dog d1, two with success true. -/
def exLogs : List Doc :=
  [exLog true, exLog false, exLog true, exLog false, exLog false]

/-- Store with the four tasks and no logs. -/
def exDb1 : Database :=
  Database.mk [("task", exTasks)]

/-- Store with the four tasks and the five logs. -/
def exDb2 : Database :=
  Database.mk [("task", exTasks), ("progresslog", exLogs)]

/-! ### Claim theorems -/

/-- C1: for every store state and optional dog_id filter, analytics_summary
returns total_tasks = the number of fetched task records, completed_tasks =
the number of those with status exactly "completed", and success_rate =
(logs with success true) / (all fetched logs) when at least one log exists,
null otherwise; concretely, 4 tasks with 3 completed and 0 logs give
{total_tasks: 4, completed_tasks: 3, success_rate: null}, and additionally
5 logs with 2 successes give success_rate 0.4 = 2/5. -/
theorem analytics_summary_correct (db : Option Database) (dog_id : Option String) :
    (analytics_summary db dog_id).total_tasks =
      (get_documents db (collection_name "Task") (analyticsFilter dog_id) none).length ∧
    (analytics_summary db dog_id).completed_tasks =
      ((get_documents db (collection_name "Task") (analyticsFilter dog_id) none).filter
        (fun t => dictGet t "status" == Value.vStr "completed")).length ∧
    (get_documents db (collection_name "ProgressLog") (analyticsFilter dog_id) none = [] →
      (analytics_summary db dog_id).success_rate = none) ∧
    (∀ logs, logs = get_documents db (collection_name "ProgressLog") (analyticsFilter dog_id) none →
      logs ≠ [] →
      (analytics_summary db dog_id).success_rate =
        some (((logs.filter (fun l => (dictGet l "success").truthy)).length : ℚ) /
          (logs.length : ℚ))) ∧
    analytics_summary (some exDb1) (some "d1") = Summary.mk 4 3 none ∧
    analytics_summary (some exDb2) (some "d1") = Summary.mk 4 3 (some ((2 : ℚ) / 5)) := by
  refine ⟨rfl, rfl, ?_, ?_, ?_, ?_⟩
  · intro h
    simp [analytics_summary, h]
  · intro logs hlogs hne
    simp only [analytics_summary]
    rw [← hlogs]
    simp [List.isEmpty_iff, hne]
  · have htasks : get_documents (some exDb1) (collection_name "Task")
        (analyticsFilter (some "d1")) none = exTasks := by decide
    have hlogs : get_documents (some exDb1) (collection_name "ProgressLog")
        (analyticsFilter (some "d1")) none = [] := by decide
    simp only [analytics_summary, htasks, hlogs]
    have hc : (exTasks.filter (fun t => dictGet t "status" == Value.vStr "completed")).length = 3 := by
      decide
    have hl : exTasks.length = 4 := by decide
    simp [hc, hl]
  · have htasks : get_documents (some exDb2) (collection_name "Task")
        (analyticsFilter (some "d1")) none = exTasks := by decide
    have hlogs : get_documents (some exDb2) (collection_name "ProgressLog")
        (analyticsFilter (some "d1")) none = exLogs := by decide
    simp only [analytics_summary, htasks, hlogs]
    have hc : (exTasks.filter (fun t => dictGet t "status" == Value.vStr "completed")).length = 3 := by
      decide
    have hl : exTasks.length = 4 := by decide
    have hsc : (exLogs.filter (fun l => (dictGet l "success").truthy)).length = 2 := by decide
    have hll : exLogs.length = 5 := by decide
    have hemp : exLogs.isEmpty = false := by decide
    simp [hc, hl, hsc, hll, hemp]

/-- C1 witness: the general conjuncts applied at the concrete example
store: with the five example logs present, success_rate is 2/5. -/
theorem analytics_summary_correct_witness :
    (analytics_summary (some exDb2) (some "d1")).success_rate =
      some (((exLogs.filter (fun l => (dictGet l "success").truthy)).length : ℚ) /
        (exLogs.length : ℚ)) := by
  refine ((analytics_summary_correct (some exDb2) (some "d1")).2.2.2.1 exLogs ?_ ?_)
  · decide
  · decide

/-- C8: on the live channel the first outbound frame is always the welcome
message; each inbound text frame with content X produces exactly one echo
frame containing X (outbound frame i+1 echoes inbound frame i); after the
disconnect that ends the inbound sequence no further frames are sent (the
outbound sequence has exactly 1 + number-of-inbound-frames entries), and
the handler terminates normally (the embedding is a total function — the
WebSocketDisconnect is swallowed). -/
theorem websocket_first_welcome_then_echoes (inbound : List String) :
    (websocket_endpoint inbound).head? =
      some (Frame.welcome "Connected to training-pets live coach") ∧
    (∀ x : String, (websocket_endpoint inbound).count (Frame.echo x) = inbound.count x) ∧
    (websocket_endpoint inbound).length = inbound.length + 1 ∧
    (∀ i : Nat, (websocket_endpoint inbound).get? (i + 1) = (inbound.get? i).map Frame.echo) := by
  refine ⟨rfl, ?_, ?_, ?_⟩
  · intro x
    have hinj : Function.Injective Frame.echo := by
      intro a b h
      cases h
      rfl
    rw [websocket_endpoint, wsLoop_eq_map, List.count_cons_of_ne (by simp),
      List.count_map_of_injective _ _ hinj]
  · rw [websocket_endpoint, wsLoop_eq_map]
    simp
  · intro i
    rw [websocket_endpoint, wsLoop_eq_map]
    simp

/-- C8 witness: a session receiving the two frames "sit" and "stay" emits
the welcome frame first and then exactly one echo per inbound frame. -/
theorem websocket_first_welcome_then_echoes_witness :
    (websocket_endpoint ["sit", "stay"]).head? =
      some (Frame.welcome "Connected to training-pets live coach") ∧
    (websocket_endpoint ["sit", "stay"]).count (Frame.echo "sit") =
      (["sit", "stay"] : List String).count "sit" ∧
    (websocket_endpoint ["sit", "stay"]).length = (["sit", "stay"] : List String).length + 1 :=
  ⟨(websocket_first_welcome_then_echoes ["sit", "stay"]).1,
   (websocket_first_welcome_then_echoes ["sit", "stay"]).2.1 "sit",
   (websocket_first_welcome_then_echoes ["sit", "stay"]).2.2.1⟩

/-- C9: when no store connection exists both task mutations return the 500
ServiceUnavailable error for every identifier, malformed ones included: the
store-absence check precedes identifier validation, so a 400 InvalidIdentifier
response is only reachable with a connected store. -/
theorem store_absence_precedes_id_validation (task_id : String)
    (payload : Option TaskUpdate) (now : Nat) :
    update_task none task_id payload now =
      Except.error (HttpError.serverError "Database not configured") ∧
    complete_task none task_id now =
      Except.error (HttpError.serverError "Database not configured") ∧
    (∀ db s, update_task db task_id payload now = Except.error (HttpError.badRequest s) →
      db ≠ none) ∧
    (∀ db s, complete_task db task_id now = Except.error (HttpError.badRequest s) →
      db ≠ none) := by
  refine ⟨rfl, rfl, ?_, ?_⟩
  · intro db s h hnone
    subst hnone
    simp [update_task] at h
  · intro db s h hnone
    subst hnone
    simp [complete_task] at h

/-- C9 witness: the malformed id "xyz" with no store connection still gets
the 500 response. -/
theorem store_absence_precedes_id_validation_witness :
    update_task none "xyz" none 0 =
      Except.error (HttpError.serverError "Database not configured") :=
  (store_absence_precedes_id_validation "xyz" none 0).1

/-- C2: with a connected store and a well-formed id matching a stored task,
complete_task sets that task's status to "completed" and stamps its
updated_at timestamp — with no hypothesis on the task's prior status — and
returns {completed: true}. -/
theorem complete_task_sets_completed (d : Database) (tid : String) (now : Nat)
    (hvalid : isValidObjectId tid = true)
    (doc : Doc) (hfind : findTask (d.getColl "task") tid = some doc) :
    ∃ d', complete_task (some d) tid now = Except.ok (d', true) ∧
      findTask (d'.getColl "task") tid =
        some (setFields doc [("status", Value.vStr "completed"), ("updated_at", Value.vNat now)]) ∧
      ∀ doc', findTask (d'.getColl "task") tid = some doc' →
        getField doc' "status" = some (Value.vStr "completed") ∧
        getField doc' "updated_at" = some (Value.vNat now) := by
  have hpres : idPred tid
      (setFields doc [("status", Value.vStr "completed"), ("updated_at", Value.vNat now)]) = true := by
    rw [idPred_setFields _ _ _ (by simp)]
    exact List.find?_some hfind
  obtain ⟨hmatch, hfind'⟩ := updateOne_of_find?_some (d.getColl "task") (idPred tid)
    [("status", Value.vStr "completed"), ("updated_at", Value.vNat now)] doc hfind hpres
  refine ⟨d.setColl "task" (updateOne (d.getColl "task") (idPred tid)
    [("status", Value.vStr "completed"), ("updated_at", Value.vNat now)]).1, ?_, ?_, ?_⟩
  · rw [complete_task_some_eq d tid now hvalid]
    simp only [hmatch]
    simp
  · rw [getColl_setColl_same]
    exact hfind'
  · intro doc' h'
    rw [getColl_setColl_same] at h'
    simp only [findTask] at h'
    rw [hfind'] at h'
    obtain rfl := Option.some.inj h'
    constructor
    · show getField (setField (setField doc "status" (Value.vStr "completed"))
        "updated_at" (Value.vNat now)) "status" = _
      rw [getField_setField, if_neg (by simp), getField_setField, if_pos rfl]
    · show getField (setField (setField doc "status" (Value.vStr "completed"))
        "updated_at" (Value.vNat now)) "updated_at" = _
      rw [getField_setField, if_pos rfl]

/-- C3: with a connected store and a well-formed id matching a stored task,
update_task applies exactly the payload fields that are present and
non-null, always stamps updated_at, and leaves every other field of the
task record unchanged. -/
theorem update_task_sparse_update (d : Database) (tid : String) (p : TaskUpdate)
    (now : Nat) (hvalid : isValidObjectId tid = true)
    (doc : Doc) (hfind : findTask (d.getColl "task") tid = some doc) :
    ∃ d', update_task (some d) tid (some p) now = Except.ok (d', true) ∧
      findTask (d'.getColl "task") tid =
        some (setFields doc (p.updateFields ++ [("updated_at", Value.vNat now)])) ∧
      ∀ doc', findTask (d'.getColl "task") tid = some doc' →
        getField doc' "updated_at" = some (Value.vNat now) ∧
        (∀ t, p.title = some t → getField doc' "title" = some (Value.vStr t)) ∧
        (p.title = none → getField doc' "title" = getField doc "title") ∧
        (∀ s, p.steps = some s → getField doc' "steps" = some (Value.vList s)) ∧
        (p.steps = none → getField doc' "steps" = getField doc "steps") ∧
        (∀ s, p.status = some s → getField doc' "status" = some (Value.vStr s)) ∧
        (p.status = none → getField doc' "status" = getField doc "status") ∧
        (∀ t, p.scheduled_for = some t →
          getField doc' "scheduled_for" = some (Value.vNat t)) ∧
        (p.scheduled_for = none →
          getField doc' "scheduled_for" = getField doc "scheduled_for") ∧
        (∀ s, p.language = some s → getField doc' "language" = some (Value.vStr s)) ∧
        (p.language = none → getField doc' "language" = getField doc "language") ∧
        (∀ k, k ∉ ["title", "steps", "status", "scheduled_for", "language", "updated_at"] →
          getField doc' k = getField doc k) := by
  have hid : "_id" ∉ (p.updateFields ++ [("updated_at", Value.vNat now)]).map Prod.fst := by
    intro h
    simp only [List.map_append, List.mem_append] at h
    rcases h with h | h
    · exact absurd (mem_keys_updateFields p _ h) (by decide)
    · simp only [List.map_cons, List.map_nil, List.mem_singleton] at h
      exact absurd h (by decide)
  have hpres : idPred tid
      (setFields doc (p.updateFields ++ [("updated_at", Value.vNat now)])) = true := by
    rw [idPred_setFields _ _ _ hid]
    exact List.find?_some hfind
  obtain ⟨hmatch, hfind'⟩ := updateOne_of_find?_some (d.getColl "task") (idPred tid)
    (p.updateFields ++ [("updated_at", Value.vNat now)]) doc hfind hpres
  refine ⟨d.setColl "task" (updateOne (d.getColl "task") (idPred tid)
    (p.updateFields ++ [("updated_at", Value.vNat now)])).1, ?_, ?_, ?_⟩
  · rw [update_task_some_eq d tid (some p) now hvalid]
    simp only [hmatch]
    simp
  · rw [getColl_setColl_same]
    exact hfind'
  · intro doc' h'
    rw [getColl_setColl_same] at h'
    simp only [findTask] at h'
    rw [hfind'] at h'
    obtain rfl := Option.some.inj h'
    exact ud_getField_spec p now doc

/-- C3 witness: patching only the status of the pending fourth example task
to "in_progress" at time 9. -/
theorem update_task_sparse_update_witness :
    ∃ d', update_task (some exDb1) "000000000000000000000004"
        (some (TaskUpdate.mk none none (some "in_progress") none none)) 9 =
        Except.ok (d', true) ∧
      findTask (d'.getColl "task") "000000000000000000000004" =
        some (setFields (exTask "000000000000000000000004" "pending")
          ((TaskUpdate.mk none none (some "in_progress") none none).updateFields ++
            [("updated_at", Value.vNat 9)])) ∧
      ∀ doc', findTask (d'.getColl "task") "000000000000000000000004" = some doc' →
        getField doc' "updated_at" = some (Value.vNat 9) ∧
        (∀ t, (TaskUpdate.mk none none (some "in_progress") none none).title = some t →
          getField doc' "title" = some (Value.vStr t)) ∧
        ((TaskUpdate.mk none none (some "in_progress") none none).title = none →
          getField doc' "title" = getField (exTask "000000000000000000000004" "pending") "title") ∧
        (∀ s, (TaskUpdate.mk none none (some "in_progress") none none).steps = some s →
          getField doc' "steps" = some (Value.vList s)) ∧
        ((TaskUpdate.mk none none (some "in_progress") none none).steps = none →
          getField doc' "steps" = getField (exTask "000000000000000000000004" "pending") "steps") ∧
        (∀ s, (TaskUpdate.mk none none (some "in_progress") none none).status = some s →
          getField doc' "status" = some (Value.vStr s)) ∧
        ((TaskUpdate.mk none none (some "in_progress") none none).status = none →
          getField doc' "status" = getField (exTask "000000000000000000000004" "pending") "status") ∧
        (∀ t, (TaskUpdate.mk none none (some "in_progress") none none).scheduled_for = some t →
          getField doc' "scheduled_for" = some (Value.vNat t)) ∧
        ((TaskUpdate.mk none none (some "in_progress") none none).scheduled_for = none →
          getField doc' "scheduled_for" =
            getField (exTask "000000000000000000000004" "pending") "scheduled_for") ∧
        (∀ s, (TaskUpdate.mk none none (some "in_progress") none none).language = some s →
          getField doc' "language" = some (Value.vStr s)) ∧
        ((TaskUpdate.mk none none (some "in_progress") none none).language = none →
          getField doc' "language" =
            getField (exTask "000000000000000000000004" "pending") "language") ∧
        (∀ k, k ∉ ["title", "steps", "status", "scheduled_for", "language", "updated_at"] →
          getField doc' k = getField (exTask "000000000000000000000004" "pending") k) :=
  update_task_sparse_update exDb1 "000000000000000000000004"
    (TaskUpdate.mk none none (some "in_progress") none none) 9 (by decide)
    (exTask "000000000000000000000004" "pending") (by decide)

/-- C2 witness: completing the pending fourth example task at time 7. -/
theorem complete_task_sets_completed_witness :
    ∃ d', complete_task (some exDb1) "000000000000000000000004" 7 = Except.ok (d', true) ∧
      findTask (d'.getColl "task") "000000000000000000000004" =
        some (setFields (exTask "000000000000000000000004" "pending")
          [("status", Value.vStr "completed"), ("updated_at", Value.vNat 7)]) ∧
      ∀ doc', findTask (d'.getColl "task") "000000000000000000000004" = some doc' →
        getField doc' "status" = some (Value.vStr "completed") ∧
        getField doc' "updated_at" = some (Value.vNat 7) :=
  complete_task_sets_completed exDb1 "000000000000000000000004" 7 (by decide)
    (exTask "000000000000000000000004" "pending") (by decide)

/-- C4: for both task mutations: with no store connection the result is the
500 ServiceUnavailable error; with a connected store, a malformed id yields
exactly the 400 InvalidIdentifier error (and the response is independent of
the store contents — no store interaction), and a well-formed id yields the
404 NotFound error exactly when no record matches; 400 and 404 are mutually
exclusive and exhaustive over the identifier-shape dimension. -/
theorem task_mutation_error_taxonomy (d : Database) (tid : String)
    (payload : Option TaskUpdate) (now : Nat) :
    (update_task none tid payload now =
      Except.error (HttpError.serverError "Database not configured")) ∧
    (complete_task none tid now =
      Except.error (HttpError.serverError "Database not configured")) ∧
    (update_task (some d) tid payload now =
        Except.error (HttpError.badRequest "Invalid id format") ↔
      isValidObjectId tid = false) ∧
    (complete_task (some d) tid now =
        Except.error (HttpError.badRequest "Invalid id format") ↔
      isValidObjectId tid = false) ∧
    (update_task (some d) tid payload now =
        Except.error (HttpError.notFound "Task not found") ↔
      isValidObjectId tid = true ∧ findTask (d.getColl "task") tid = none) ∧
    (complete_task (some d) tid now =
        Except.error (HttpError.notFound "Task not found") ↔
      isValidObjectId tid = true ∧ findTask (d.getColl "task") tid = none) ∧
    (∀ d₂ : Database, isValidObjectId tid = false →
      update_task (some d) tid payload now = update_task (some d₂) tid payload now ∧
      complete_task (some d) tid now = complete_task (some d₂) tid now) := by
  refine ⟨rfl, rfl, ?_, ?_, ?_, ?_, ?_⟩
  · cases hv : isValidObjectId tid
    · simp [update_task, to_object_id, hv]
    · rw [update_task_some_eq d tid payload now hv]
      simp only [hv]
      exact iff_of_false (mutation_if_ne_badRequest d tid _ _) (by simp)
  · cases hv : isValidObjectId tid
    · simp [complete_task, to_object_id, hv]
    · rw [complete_task_some_eq d tid now hv]
      simp only [hv]
      exact iff_of_false (mutation_if_ne_badRequest d tid _ _) (by simp)
  · cases hv : isValidObjectId tid
    · simp [update_task, to_object_id, hv]
    · rw [update_task_some_eq d tid payload now hv]
      simp only [hv, true_and]
      exact mutation_if_notFound_iff d tid _
  · cases hv : isValidObjectId tid
    · simp [complete_task, to_object_id, hv]
    · rw [complete_task_some_eq d tid now hv]
      simp only [hv, true_and]
      exact mutation_if_notFound_iff d tid _
  · intro d₂ hv
    exact ⟨by simp [update_task, to_object_id, hv],
      by simp [complete_task, to_object_id, hv]⟩

/-- C4 witness: the malformed id "xyz" on the example store gets the 400
response, and a well-formed unmatched id gets the 404 response. -/
theorem task_mutation_error_taxonomy_witness :
    update_task (some exDb1) "xyz" none 0 =
      Except.error (HttpError.badRequest "Invalid id format") ∧
    complete_task (some exDb1) exOid 0 =
      Except.error (HttpError.notFound "Task not found") :=
  ⟨(task_mutation_error_taxonomy exDb1 "xyz" none 0).2.2.1.mpr (by decide),
   (task_mutation_error_taxonomy exDb1 exOid none 0).2.2.2.2.2.1.mpr ⟨by decide, by decide⟩⟩

/-- C5 counterexample: the claim as stated fails — completing the same task
twice (at store times 0 and then 1) leaves different observable stored
states, because complete_task restamps updated_at on every call. -/
theorem complete_task_twice_changes_state :
    ∃ d1 d2 : Database,
      complete_task (some exDb1) "000000000000000000000004" 0 = Except.ok (d1, true) ∧
      complete_task (some d1) "000000000000000000000004" 1 = Except.ok (d2, true) ∧
      d1 ≠ d2 := by
  refine ⟨Database.mk [("task",
      [exTask "000000000000000000000001" "completed",
       exTask "000000000000000000000002" "completed",
       exTask "000000000000000000000003" "completed",
       setFields (exTask "000000000000000000000004" "pending")
         [("status", Value.vStr "completed"), ("updated_at", Value.vNat 0)]])],
    Database.mk [("task",
      [exTask "000000000000000000000001" "completed",
       exTask "000000000000000000000002" "completed",
       exTask "000000000000000000000003" "completed",
       setFields (exTask "000000000000000000000004" "pending")
         [("status", Value.vStr "completed"), ("updated_at", Value.vNat 1)]])],
    rfl, rfl, by decide⟩

/-- C5 amended: a second complete_task call on the same id succeeds and
leaves the matched task in the same state except for the updated_at
timestamp, which is restamped with the second call's time; in particular,
when the two calls stamp the same timestamp, the stored state after the
second call is identical to the state after the first. -/
theorem complete_task_idempotent_up_to_timestamp (d d1 : Database) (tid : String)
    (now : Nat) (h : complete_task (some d) tid now = Except.ok (d1, true)) :
    ∀ now' : Nat, ∃ d2 doc1 doc2,
      complete_task (some d1) tid now' = Except.ok (d2, true) ∧
      findTask (d1.getColl "task") tid = some doc1 ∧
      findTask (d2.getColl "task") tid = some doc2 ∧
      getField doc2 "status" = some (Value.vStr "completed") ∧
      getField doc2 "updated_at" = some (Value.vNat now') ∧
      (∀ k, k ≠ "updated_at" → getField doc2 k = getField doc1 k) ∧
      (now' = now → d2 = d1) := by
  intro now'
  cases hv : isValidObjectId tid with
  | false =>
      rw [complete_task, to_object_id, hv] at h
      simp at h
  | true =>
      rw [complete_task_some_eq d tid now hv] at h
      simp only at h
      by_cases hm : (updateOne (d.getColl "task") (idPred tid)
          [("status", Value.vStr "completed"), ("updated_at", Value.vNat now)]).2 = 0
      · rw [if_pos (by simpa using hm)] at h
        cases h
      · rw [if_neg (by simpa using hm)] at h
        obtain ⟨hd1, -⟩ := Prod.mk.injEq .. ▸ Except.ok.inj h
        have hfn : (d.getColl "task").find? (idPred tid) ≠ none := by
          intro hc
          exact hm ((updateOne_matched_zero _ _ _).mpr hc)
        obtain ⟨doc0, hdoc0⟩ := Option.ne_none_iff_exists'.mp hfn
        have hpres0 : idPred tid (setFields doc0
            [("status", Value.vStr "completed"), ("updated_at", Value.vNat now)]) = true := by
          rw [idPred_setFields _ _ _ (by simp)]
          exact List.find?_some hdoc0
        obtain ⟨hm1, hfind1⟩ := updateOne_of_find?_some (d.getColl "task") (idPred tid)
          [("status", Value.vStr "completed"), ("updated_at", Value.vNat now)] doc0 hdoc0 hpres0
        have hcoll1 : d1.getColl "task" =
            (updateOne (d.getColl "task") (idPred tid)
              [("status", Value.vStr "completed"), ("updated_at", Value.vNat now)]).1 := by
          rw [← hd1, getColl_setColl_same]
        set doc1 := setFields doc0
          [("status", Value.vStr "completed"), ("updated_at", Value.vNat now)] with hdoc1def
        have hpres1 : idPred tid (setFields doc1
            [("status", Value.vStr "completed"), ("updated_at", Value.vNat now')]) = true := by
          rw [idPred_setFields _ _ _ (by simp)]
          exact List.find?_some (hcoll1 ▸ (hcoll1.symm ▸ hfind1))
        have hfindd1 : (d1.getColl "task").find? (idPred tid) = some doc1 := by
          rw [hcoll1]
          exact hfind1
        obtain ⟨hm2, hfind2⟩ := updateOne_of_find?_some (d1.getColl "task") (idPred tid)
          [("status", Value.vStr "completed"), ("updated_at", Value.vNat now')] doc1 hfindd1 hpres1
        refine ⟨d1.setColl "task" (updateOne (d1.getColl "task") (idPred tid)
            [("status", Value.vStr "completed"), ("updated_at", Value.vNat now')]).1,
          doc1,
          setFields doc1 [("status", Value.vStr "completed"), ("updated_at", Value.vNat now')],
          ?_, hfindd1, ?_, ?_, ?_, ?_, ?_⟩
        · rw [complete_task_some_eq d1 tid now' hv]
          simp only [hm2]
          simp
        · rw [getColl_setColl_same]
          exact hfind2
        · show getField (setField (setField doc1 "status" (Value.vStr "completed"))
            "updated_at" (Value.vNat now')) "status" = _
          rw [getField_setField, if_neg (by simp), getField_setField, if_pos rfl]
        · show getField (setField (setField doc1 "status" (Value.vStr "completed"))
            "updated_at" (Value.vNat now')) "updated_at" = _
          rw [getField_setField, if_pos rfl]
        · intro k hk
          show getField (setField (setField doc1 "status" (Value.vStr "completed"))
            "updated_at" (Value.vNat now')) k = _
          rw [getField_setField, if_neg hk, getField_setField]
          by_cases hks : k = "status"
          · subst hks
            rw [if_pos rfl, hdoc1def]
            show _ = getField (setField (setField doc0 "status" (Value.vStr "completed"))
              "updated_at" (Value.vNat now)) "status"
            rw [getField_setField, if_neg (by simp), getField_setField, if_pos rfl]
          · rw [if_neg hks]
        · intro hnow
          subst hnow
          have hidem := updateOne_idem (d.getColl "task") (idPred tid)
            [("status", Value.vStr "completed"), ("updated_at", Value.vNat now')]
            (fun m _ => completeSets_idem m now')
            (fun m hm' => by
              rw [idPred_setFields _ _ _ (by simp)]
              exact hm')
          rw [hcoll1, hidem, ← hd1, setColl_setColl_same]

/-- C5 amended witness: completing the pending fourth example task at time
3 and again at time 3 leaves the store unchanged by the second call. -/
theorem complete_task_idempotent_up_to_timestamp_witness :
    ∃ d2 doc1 doc2,
      complete_task (some (Database.mk [("task",
          [setFields (exTask "000000000000000000000004" "pending")
            [("status", Value.vStr "completed"), ("updated_at", Value.vNat 3)]])]))
        "000000000000000000000004" 3 = Except.ok (d2, true) ∧
      findTask ((Database.mk [("task",
          [setFields (exTask "000000000000000000000004" "pending")
            [("status", Value.vStr "completed"), ("updated_at", Value.vNat 3)]])]
        : Database).getColl "task") "000000000000000000000004" = some doc1 ∧
      findTask (d2.getColl "task") "000000000000000000000004" = some doc2 ∧
      getField doc2 "status" = some (Value.vStr "completed") ∧
      getField doc2 "updated_at" = some (Value.vNat 3) ∧
      (∀ k, k ≠ "updated_at" → getField doc2 k = getField doc1 k) ∧
      (3 = 3 → d2 = Database.mk [("task",
          [setFields (exTask "000000000000000000000004" "pending")
            [("status", Value.vStr "completed"), ("updated_at", Value.vNat 3)]])]) :=
  complete_task_idempotent_up_to_timestamp
    (Database.mk [("task", [exTask "000000000000000000000004" "pending"])])
    (Database.mk [("task",
      [setFields (exTask "000000000000000000000004" "pending")
        [("status", Value.vStr "completed"), ("updated_at", Value.vNat 3)]])])
    "000000000000000000000004" 3 rfl 3

/-- C6: every list endpoint returns at most the requested (or default)
number of items — dogs default 100, exercises default 200, tasks default
50, progress default 200 — and limits outside the documented bounds
(dogs [1,500], exercises [1,1000], tasks [1,500], progress [1,1000]) are
rejected by the framework's query validation. -/
theorem list_endpoints_respect_limit (db : Option Database) (lim : Int)
    (dog_id status task_id : Option String) :
    (∀ items, list_dogs db none = Except.ok items → items.length ≤ 100) ∧
    (∀ items, list_exercises db none = Except.ok items → items.length ≤ 200) ∧
    (∀ items, list_tasks db dog_id status none = Except.ok items → items.length ≤ 50) ∧
    (∀ items, list_progress db dog_id task_id none = Except.ok items →
      items.length ≤ 200) ∧
    (1 ≤ lim → lim ≤ 500 → ∀ items, list_dogs db (some lim) = Except.ok items →
      items.length ≤ lim.toNat) ∧
    (1 ≤ lim → lim ≤ 1000 → ∀ items, list_exercises db (some lim) = Except.ok items →
      items.length ≤ lim.toNat) ∧
    (1 ≤ lim → lim ≤ 500 → ∀ items,
      list_tasks db dog_id status (some lim) = Except.ok items →
      items.length ≤ lim.toNat) ∧
    (1 ≤ lim → lim ≤ 1000 → ∀ items,
      list_progress db dog_id task_id (some lim) = Except.ok items →
      items.length ≤ lim.toNat) ∧
    (lim < 1 ∨ 500 < lim →
      list_dogs db (some lim) = Except.error HttpError.validationError) ∧
    (lim < 1 ∨ 1000 < lim →
      list_exercises db (some lim) = Except.error HttpError.validationError) ∧
    (lim < 1 ∨ 500 < lim →
      list_tasks db dog_id status (some lim) = Except.error HttpError.validationError) ∧
    (lim < 1 ∨ 1000 < lim →
      list_progress db dog_id task_id (some lim) = Except.error HttpError.validationError) := by
  refine ⟨?_, ?_, ?_, ?_, ?_, ?_, ?_, ?_, ?_, ?_, ?_, ?_⟩
  · intro items h
    obtain ⟨n, hn, rfl⟩ := list_ok_shape (validateLimit 100 1 500 none)
      (fun m => get_documents db (collection_name "Dog") [] (some m)) items h
    obtain rfl : (100 : Nat) = n := Except.ok.inj hn
    rw [List.length_map]
    exact length_get_documents_le _ _ _ _
  · intro items h
    obtain ⟨n, hn, rfl⟩ := list_ok_shape (validateLimit 200 1 1000 none)
      (fun m => get_documents db (collection_name "Exercise") [] (some m)) items h
    obtain rfl : (200 : Nat) = n := Except.ok.inj hn
    rw [List.length_map]
    exact length_get_documents_le _ _ _ _
  · intro items h
    obtain ⟨n, hn, rfl⟩ := list_ok_shape (validateLimit 50 1 500 none)
      (fun m => get_documents db (collection_name "Task")
        ((if truthyStr dog_id then [("dog_id", Value.vStr (dog_id.getD ""))] else []) ++
         (if truthyStr status then [("status", Value.vStr (status.getD ""))] else []))
        (some m)) items h
    obtain rfl : (50 : Nat) = n := Except.ok.inj hn
    rw [List.length_map]
    exact length_get_documents_le _ _ _ _
  · intro items h
    obtain ⟨n, hn, rfl⟩ := list_ok_shape (validateLimit 200 1 1000 none)
      (fun m => get_documents db (collection_name "ProgressLog")
        ((if truthyStr dog_id then [("dog_id", Value.vStr (dog_id.getD ""))] else []) ++
         (if truthyStr task_id then [("task_id", Value.vStr (task_id.getD ""))] else []))
        (some m)) items h
    obtain rfl : (200 : Nat) = n := Except.ok.inj hn
    rw [List.length_map]
    exact length_get_documents_le _ _ _ _
  · intro h1 h2 items h
    obtain ⟨n, hn, rfl⟩ := list_ok_shape (validateLimit 100 1 500 (some lim))
      (fun m => get_documents db (collection_name "Dog") [] (some m)) items h
    rw [validateLimit_pos _ _ _ _ h1 h2] at hn
    obtain rfl := Except.ok.inj hn
    rw [List.length_map]
    exact length_get_documents_le _ _ _ _
  · intro h1 h2 items h
    obtain ⟨n, hn, rfl⟩ := list_ok_shape (validateLimit 200 1 1000 (some lim))
      (fun m => get_documents db (collection_name "Exercise") [] (some m)) items h
    rw [validateLimit_pos _ _ _ _ h1 h2] at hn
    obtain rfl := Except.ok.inj hn
    rw [List.length_map]
    exact length_get_documents_le _ _ _ _
  · intro h1 h2 items h
    obtain ⟨n, hn, rfl⟩ := list_ok_shape (validateLimit 50 1 500 (some lim))
      (fun m => get_documents db (collection_name "Task")
        ((if truthyStr dog_id then [("dog_id", Value.vStr (dog_id.getD ""))] else []) ++
         (if truthyStr status then [("status", Value.vStr (status.getD ""))] else []))
        (some m)) items h
    rw [validateLimit_pos _ _ _ _ h1 h2] at hn
    obtain rfl := Except.ok.inj hn
    rw [List.length_map]
    exact length_get_documents_le _ _ _ _
  · intro h1 h2 items h
    obtain ⟨n, hn, rfl⟩ := list_ok_shape (validateLimit 200 1 1000 (some lim))
      (fun m => get_documents db (collection_name "ProgressLog")
        ((if truthyStr dog_id then [("dog_id", Value.vStr (dog_id.getD ""))] else []) ++
         (if truthyStr task_id then [("task_id", Value.vStr (task_id.getD ""))] else []))
        (some m)) items h
    rw [validateLimit_pos _ _ _ _ h1 h2] at hn
    obtain rfl := Except.ok.inj hn
    rw [List.length_map]
    exact length_get_documents_le _ _ _ _
  · intro h
    simp [list_dogs, validateLimit_neg 100 1 500 lim h, Bind.bind, Except.bind]
  · intro h
    simp [list_exercises, validateLimit_neg 200 1 1000 lim h, Bind.bind, Except.bind]
  · intro h
    simp [list_tasks, validateLimit_neg 50 1 500 lim h, Bind.bind, Except.bind]
  · intro h
    simp [list_progress, validateLimit_neg 200 1 1000 lim h, Bind.bind, Except.bind]

/-- C6 witness: limit 0 is rejected on GET /dogs, and GET /tasks with
limit 2 on the example store returns at most 2 items. -/
theorem list_endpoints_respect_limit_witness :
    (list_dogs (some exDb1) (some 0) = Except.error HttpError.validationError) ∧
    ∀ items, list_tasks (some exDb1) none none (some 2) = Except.ok items →
      items.length ≤ (2 : Int).toNat :=
  ⟨(list_endpoints_respect_limit (some exDb1) 0 none none none).2.2.2.2.2.2.2.2.1
      (Or.inl (by decide)),
   fun items h =>
    (list_endpoints_respect_limit (some exDb1) 2 none none none).2.2.2.2.2.2.1
      (by decide) (by decide) items h⟩

/-- C7: every record returned by any list endpoint carries its "_id" field
as a string value in the output, regardless of the store's native
identifier representation. -/
theorem list_ids_stringified (db : Option Database) (lim : Option Int)
    (dog_id status task_id : Option String) :
    (∀ items, list_dogs db lim = Except.ok items →
      ∀ doc ∈ items, ∃ s, getField doc "_id" = some (Value.vStr s)) ∧
    (∀ items, list_exercises db lim = Except.ok items →
      ∀ doc ∈ items, ∃ s, getField doc "_id" = some (Value.vStr s)) ∧
    (∀ items, list_tasks db dog_id status lim = Except.ok items →
      ∀ doc ∈ items, ∃ s, getField doc "_id" = some (Value.vStr s)) ∧
    (∀ items, list_progress db dog_id task_id lim = Except.ok items →
      ∀ doc ∈ items, ∃ s, getField doc "_id" = some (Value.vStr s)) := by
  refine ⟨?_, ?_, ?_, ?_⟩
  · intro items h
    obtain ⟨n, -, rfl⟩ := list_ok_shape (validateLimit 100 1 500 lim)
      (fun m => get_documents db (collection_name "Dog") [] (some m)) items h
    intro doc hdoc
    obtain ⟨d0, -, rfl⟩ := List.mem_map.mp hdoc
    exact ⟨_, getField_stringifyId d0⟩
  · intro items h
    obtain ⟨n, -, rfl⟩ := list_ok_shape (validateLimit 200 1 1000 lim)
      (fun m => get_documents db (collection_name "Exercise") [] (some m)) items h
    intro doc hdoc
    obtain ⟨d0, -, rfl⟩ := List.mem_map.mp hdoc
    exact ⟨_, getField_stringifyId d0⟩
  · intro items h
    obtain ⟨n, -, rfl⟩ := list_ok_shape (validateLimit 50 1 500 lim)
      (fun m => get_documents db (collection_name "Task")
        ((if truthyStr dog_id then [("dog_id", Value.vStr (dog_id.getD ""))] else []) ++
         (if truthyStr status then [("status", Value.vStr (status.getD ""))] else []))
        (some m)) items h
    intro doc hdoc
    obtain ⟨d0, -, rfl⟩ := List.mem_map.mp hdoc
    exact ⟨_, getField_stringifyId d0⟩
  · intro items h
    obtain ⟨n, -, rfl⟩ := list_ok_shape (validateLimit 200 1 1000 lim)
      (fun m => get_documents db (collection_name "ProgressLog")
        ((if truthyStr dog_id then [("dog_id", Value.vStr (dog_id.getD ""))] else []) ++
         (if truthyStr task_id then [("task_id", Value.vStr (task_id.getD ""))] else []))
        (some m)) items h
    intro doc hdoc
    obtain ⟨d0, -, rfl⟩ := List.mem_map.mp hdoc
    exact ⟨_, getField_stringifyId d0⟩

/-- C7 witness: the four example tasks listed by GET /tasks all carry a
string "_id". -/
theorem list_ids_stringified_witness :
    ∀ doc ∈ (get_documents (some exDb1) (collection_name "Task") [] (some 50)).map
      stringifyId, ∃ s, getField doc "_id" = some (Value.vStr s) :=
  (list_ids_stringified (some exDb1) none none none none).2.2.1
    ((get_documents (some exDb1) (collection_name "Task") [] (some 50)).map stringifyId) rfl

/-- C10: for GET /tasks and GET /progress, a filter query parameter that is
the empty string is treated the same as an absent one — it is not added to
the store query — and an empty filter matches every stored record, so the
results are unfiltered (truncated to the limit only). -/
theorem empty_string_filter_ignored (db : Option Database)
    (dog_id status task_id : Option String) (lim : Option Int) :
    list_tasks db (some "") status lim = list_tasks db none status lim ∧
    list_tasks db dog_id (some "") lim = list_tasks db dog_id none lim ∧
    list_progress db (some "") task_id lim = list_progress db none task_id lim ∧
    list_progress db dog_id (some "") lim = list_progress db dog_id none lim ∧
    (∀ d : Database, ∀ n : Nat,
      get_documents (some d) (collection_name "Task") [] (some n) =
        (d.getColl (collection_name "Task")).take n) := by
  refine ⟨rfl, rfl, rfl, rfl, ?_⟩
  intro d n
  simp only [get_documents]
  have hm : matchesFilter [] = fun _ => true := rfl
  rw [hm, List.filter_true]

/-- C10 witness: GET /tasks on the example store with an empty-string
dog_id filter returns all four tasks, exactly as with no filter. -/
theorem empty_string_filter_ignored_witness :
    get_documents (some exDb2) (collection_name "Task") [] (some 3) =
      (exDb2.getColl (collection_name "Task")).take 3 :=
  (empty_string_filter_ignored (some exDb2) none none none none).2.2.2.2 exDb2 3

end TrainingPets
